import Mathlib

/-!
Shallow embedding of the shebang 2D renderer's resource-caching core:
`src/renderer/texture.rs`, `src/renderer/material.rs` and the tessellation
benchmark `src/render2.rs`.

Modelling conventions:
* Rust `u32`/`u64` values are `Nat` (no arithmetic is performed on them in
  the embedded code, so no wraparound arises).
* `f32` values are represented by their 32-bit IEEE-754 bit pattern as a
  `Nat`; `f32Eq` below is IEEE numeric equality expressed on bit patterns
  (the semantics of Rust's derived `PartialEq` on `f32` fields).
* A Rust panic (`panic!`, `todo!`, `Result::unwrap` on `Err`) is the
  `PanicOr.panic` outcome; the program has no `catch_unwind`, so a panic
  terminates the process.  Functions whose Rust signature cannot return an
  error value are embedded with result type `PanicOr _`: their only
  outcomes are normal return and process abort.
* `Arc<RgbaImage>` sharing is irrelevant to the embedded functions
  (they replace the whole `Arc` on update), so an image is a plain value.
-/

namespace Shebang

/-- Outcome of running a Rust function that can only return normally or
panic (abort the process). -/
inductive PanicOr (α : Type) where
  | panic (msg : String)
  | ok (a : α)
deriving DecidableEq

/-- An RGBA image (the payload of `image::RgbaImage`): dimensions plus raw
bytes.  Decoding from file formats is out of scope; `into_rgba8` on an
already-RGBA image is the identity and preserves dimensions. -/
structure RgbaImage where
  width : Nat
  height : Nat
  data : List Nat
deriving DecidableEq

/-- Modelled from the spec: `CacheEntry` (defined in `renderer/helpers.rs`,
which is not among the provided sources) is a "process-unique opaque
identity"; it is modelled as an opaque `Nat`.  `CacheEntry::new` itself is
not needed by the embedded functions, which only clone stored ids. -/
abbrev CacheEntry : Type := Nat

/-- `Texture` from `src/renderer/texture.rs`. -/
inductive Texture where
  | RgbaImageTexture (image : RgbaImage) (id : CacheEntry) (fingerprint : Nat)
  | RawTexture (buffer : List Nat) (width : Nat) (height : Nat) (id : CacheEntry) (fingerprint : Nat)
deriving DecidableEq

/-- `Texture::update_image`.  The fresh value of `rand::random::<u64>()`
drawn inside the function is passed in explicitly as `r` (the embedding of
the random-number generator's output for this call).  Matches the source:
an image-backed texture with matching dimensions gets the new image and the
new random fingerprint; mismatched dimensions hit
`panic!("Image dimensions do not match")`; any other variant hits
`panic!("Texture is not backed by an image")`. -/
def Texture.update_image (t : Texture) (image : RgbaImage) (r : Nat) : PanicOr Texture :=
  match t with
  | .RgbaImageTexture old_image id _ =>
      if (old_image.width, old_image.height) = (image.width, image.height) then
        .ok (.RgbaImageTexture image id r)
      else
        .panic "Image dimensions do not match"
  | .RawTexture .. => .panic "Texture is not backed by an image"

/-- `Texture::size`. -/
def Texture.size (t : Texture) : Nat × Nat :=
  match t with
  | .RgbaImageTexture image .. => (image.width, image.height)
  | .RawTexture _ width height .. => (width, height)

/-- `Texture::data`. -/
def Texture.data (t : Texture) : List Nat :=
  match t with
  | .RgbaImageTexture image .. => image.data
  | .RawTexture buffer .. => buffer

/-- `impl Fingerprint for Texture`: read the stored fingerprint field. -/
def Texture.fingerprint (t : Texture) : Nat :=
  match t with
  | .RgbaImageTexture _ _ fingerprint => fingerprint
  | .RawTexture _ _ _ _ fingerprint => fingerprint

/-- `impl Cacheable for Texture`: clone the stored id field. -/
def Texture.cache_id (t : Texture) : CacheEntry :=
  match t with
  | .RgbaImageTexture _ id _ => id
  | .RawTexture _ _ _ id _ => id

/-- A sequence of `update_image` calls applied to a texture, each with its
own replacement image and its own random draw; a panic aborts the run. -/
def applyUpdates (t : Texture) (us : List (RgbaImage × Nat)) : PanicOr Texture :=
  match us with
  | [] => .ok t
  | u :: rest =>
      match t.update_image u.1 u.2 with
      | .panic msg => .panic msg
      | .ok t1 => applyUpdates t1 rest

/-- `Colour` from `src/renderer/material.rs`: four `f32` components, each
held as its 32-bit IEEE-754 bit pattern. -/
structure Colour where
  r : Nat
  g : Nat
  b : Nat
  a : Nat
deriving DecidableEq

/-- Little-endian byte decomposition of a 32-bit value (the target is
little-endian, so `bytemuck::bytes_of` on an `f32` yields these 4 bytes of
its bit pattern). -/
def toLeBytes (x : Nat) : List Nat :=
  [x % 256, x / 256 % 256, x / 65536 % 256, x / 16777216 % 256]

/-- `bytemuck::bytes_of(colour)`: the 16-byte `repr(C)` layout of the four
`f32` fields, in declaration order, each little-endian. -/
def Colour.bytesOf (c : Colour) : List Nat :=
  toLeBytes c.r ++ toLeBytes c.g ++ toLeBytes c.b ++ toLeBytes c.a

/-- `GradientType` from `src/renderer/material.rs`. -/
inductive GradientType where
  | Linear
  | Radial
  | Conic
deriving DecidableEq

/-- `GradientRepeatMode` from `src/renderer/material.rs` (the `f32` length
is a bit pattern). -/
inductive GradientRepeatMode where
  | None
  | Repeat (length : Nat)
deriving DecidableEq

/-- `TextureStretchMode` from `src/renderer/material.rs`. -/
inductive TextureStretchMode where
  | Exact
  | ExactCenter
  | Stretch
deriving DecidableEq

/-- `TextureStretchMode::u32_repr`. -/
def TextureStretchMode.u32_repr (s : TextureStretchMode) : Nat :=
  match s with
  | .Exact => 0
  | .ExactCenter => 1
  | .Stretch => 2

/-- `Material` from `src/renderer/material.rs`.  Gradient stops and the
rotation are `f32` bit patterns. -/
inductive Material where
  | Color (color : Colour)
  | Texture (texture : Texture) (stretch : TextureStretchMode)
  | Gradient (gradient_type : GradientType) (colours : List Colour)
      (stops : List Nat) (repeat_mode : GradientRepeatMode) (rotation : Nat)
deriving DecidableEq

/-- `MaterialType` from `src/renderer/material.rs`. -/
inductive MaterialType where
  | Color
  | Texture
  | Gradient
deriving DecidableEq

/-- `Material::material_type`. -/
def Material.material_type (m : Material) : MaterialType :=
  match m with
  | .Color .. => .Color
  | .Texture .. => .Texture
  | .Gradient .. => .Gradient

/-- `Material::uniform_bytes`.  `Color` packs the four floats with
`bytemuck::bytes_of`; `Texture` returns the single byte
`vec![stretch.u32_repr() as u8]` in each of its three match arms (the `as
u8` cast is reduction mod 256); `Gradient` is `todo!()`, which panics with
the message "not yet implemented". -/
def Material.uniform_bytes (m : Material) : PanicOr (List Nat) :=
  match m with
  | .Color color => .ok (Colour.bytesOf color)
  | .Texture _ stretch => .ok [stretch.u32_repr % 256]
  | .Gradient .. => .panic "not yet implemented"

/-- `MaterialType::uniform_buffer_size`: every arm returns
`size_of::<[f32; 4]>() = 16`. -/
def MaterialType.uniform_buffer_size (t : MaterialType) : Nat :=
  match t with
  | .Color => 16
  | .Texture => 16
  | .Gradient => 16

/-- `Material::uniform_buffer_size` delegates to the material type. -/
def Material.uniform_buffer_size (m : Material) : Nat :=
  m.material_type.uniform_buffer_size

/-- Does a 32-bit pattern encode an IEEE-754 single-precision NaN?
(exponent bits all ones, mantissa non-zero). -/
def f32IsNaN (x : Nat) : Bool :=
  (x / 8388608) % 256 == 255 && x % 8388608 != 0

/-- Does a 32-bit pattern encode +0.0 or -0.0? -/
def f32IsZero (x : Nat) : Bool :=
  x == 0 || x == 2147483648

/-- IEEE-754 numeric equality of two `f32` values given by bit pattern:
this is what Rust's `==` on `f32` (hence the derived `PartialEq`) computes.
NaN compares unequal to everything, +0.0 equals -0.0, and any other value
is equal exactly to its own bit pattern. -/
def f32Eq (x y : Nat) : Bool :=
  !f32IsNaN x && !f32IsNaN y && (x == y || (f32IsZero x && f32IsZero y))

/-- `Vertex` from `src/render2.rs` (fields are `f32` bit patterns). -/
structure Vertex where
  x : Nat
  y : Nat
deriving DecidableEq

/-- `Circle` from `src/render2.rs` (fields are `f32` bit patterns). -/
structure Circle where
  centerx : Nat
  centery : Nat
  radius : Nat
deriving DecidableEq

/-- The derived `PartialEq for Circle`: fieldwise `f32` numeric equality. -/
def circleEq (a b : Circle) : Bool :=
  f32Eq a.centerx b.centerx && f32Eq a.centery b.centery && f32Eq a.radius b.radius

/-- When `HashMap` lookup of key `b` can find an entry stored under key
`a`: the stored hash must match (the manual `Hash for Circle` hashes the
`to_bits()` patterns, so equal hash streams means equal bit patterns, and
distinct hashes are modelled as distinct buckets) and the derived
`PartialEq` must accept the pair. -/
def keyMatch (a b : Circle) : Bool :=
  a == b && circleEq a b

/-- The mesh cache of `src/render2.rs`:
`HashMap<Circle, (Vec<Vertex>, Vec<u32>)>`, modelled as an association
list (insertion never overwrites because an insert only follows a failed
lookup of the same key). -/
abbrev MeshCache : Type := List (Circle × (List Vertex × List Nat))

/-- `cache.get(&circle)` under the `keyMatch` lookup semantics. -/
def cacheGet (m : MeshCache) (c : Circle) : Option (List Vertex × List Nat) :=
  (List.find? (fun e => keyMatch e.1 c) m).map Prod.snd

/-- `cache.insert(circle, mesh)`. -/
def cacheInsert (m : MeshCache) (c : Circle) (v : List Vertex × List Nat) : MeshCache :=
  (c, v) :: m

/-- Modelled from the spec: the `VertexBuffer` struct itself is defined in
a source file not provided (only its `GeometryBuilder` impls are); per the
spec it accumulates the growing vertex and index sequences. -/
structure VertexBuffer where
  vertices : List Vertex
  indices : List Nat
deriving DecidableEq

/-- `abort_geometry` from the `GeometryBuilder for VertexBuffer` impl in
`src/render2.rs`: it unconditionally panics. -/
def abort_geometry : PanicOr Unit :=
  .panic "Something went wrong while tessellating a geometry, cannot proceed."

/-- `tess` from `src/render2.rs`, parameterised by the external lyon fill
tessellator `T`.  Modelled from the spec: lyon's `tessellate_circle` is
outside this repository; per the spec it is a deterministic function of the
primitive, producing the mesh's vertices and buffer-local triangle indices
(the `FillGeometryBuilder` impl in the source assigns each new vertex the
buffer-global id `vertices.len() - 1`, so the indices pushed by
`add_triangle` are the local indices shifted by the buffer length at call
time), or a `TessellationError` on failure.  On a cache hit, the cached
vertex and index sequences are appended to the buffer verbatim and the
tessellator is not invoked; on a miss, the tessellator's result is
`unwrap()`ed (an `Err` aborts via panic), its output is appended, and the
appended segment (`get_last_geomtery()` / `get_last_indices()`, modelled
from the spec as the portion added by this tessellation) is inserted into
the cache.  The returned `Bool` records whether the tessellator was
invoked. -/
def tess (T : Circle → Except String (List Vertex × List Nat))
    (c : Circle) (b : VertexBuffer) (m : MeshCache) :
    PanicOr (VertexBuffer × MeshCache × Bool) :=
  match cacheGet m c with
  | some v => .ok (⟨b.vertices ++ v.1, b.indices ++ v.2⟩, m, false)
  | none =>
      match T c with
      | .error _ => .panic "called Result::unwrap() on an Err value"
      | .ok (vs, ids) =>
          let gis := ids.map (fun i => i + b.vertices.length)
          .ok (⟨b.vertices ++ vs, b.indices ++ gis⟩, cacheInsert m c (vs, gis), true)

/-- Modelled from the spec: a fill tessellator that fails on degenerate
geometry ("tessellation fails only on degenerate geometry (zero radius,
coincident endpoints)"); on a zero-radius circle it reports a
tessellation error, and otherwise produces an empty mesh (its non-failing
output is irrelevant to the claims it serves). -/
def degenTess (c : Circle) : Except String (List Vertex × List Nat) :=
  if f32IsZero c.radius then .error "DegenerateGeometry" else .ok ([], [])


/-! Theorems about the claims. -/

/-- Helper: a single successful `update_image` keeps the stored cache id. -/
theorem update_image_ok_cache_id (t : Texture) (image : RgbaImage) (r : Nat)
    (t2 : Texture) (h : t.update_image image r = PanicOr.ok t2) :
    t2.cache_id = t.cache_id := by
  cases t with
  | RgbaImageTexture old id fp =>
      by_cases hd : (old.width, old.height) = (image.width, image.height)
      · simp [Texture.update_image, hd] at h
        subst h
        rfl
      · simp [Texture.update_image, hd] at h
  | RawTexture buffer w hgt id fp => cases h

/-- Claim C1, counterexample: on a 64×64 image-backed texture,
`update_image` with a 32×32 image does not return a recoverable
`DimensionMismatch` error — it panics (process abort); the texture value
itself is untouched, so `data()` still holds the 64×64 pixels. -/
theorem C1_counterexample :
    Texture.update_image
        (.RgbaImageTexture ⟨64, 64, List.replicate 16384 0⟩ 1 7)
        ⟨32, 32, List.replicate 4096 0⟩ 9
      = PanicOr.panic "Image dimensions do not match"
    ∧ Texture.data (.RgbaImageTexture ⟨64, 64, List.replicate 16384 0⟩ 1 7)
      = List.replicate 16384 0 :=
  ⟨rfl, rfl⟩

/-- Claim C1 (amended): for every image-backed texture and every
replacement image whose dimensions differ, `update_image` panics with
"Image dimensions do not match" — terminating rather than returning a
recoverable error — and the texture value is not mutated, so its previous
pixel data is still what `data()` returns. -/
theorem C1_update_image_dimension_mismatch_panics
    (image : RgbaImage) (id fp : Nat) (image2 : RgbaImage) (r : Nat)
    (h : (image.width, image.height) ≠ (image2.width, image2.height)) :
    Texture.update_image (.RgbaImageTexture image id fp) image2 r
      = PanicOr.panic "Image dimensions do not match"
    ∧ Texture.data (.RgbaImageTexture image id fp) = image.data := by
  refine ⟨?_, rfl⟩
  unfold Texture.update_image
  simp [h]

/-- Claim C1 witness: the amended theorem applied to a concrete 2×2
texture and a 1×1 replacement image. -/
theorem C1_witness :
    Texture.update_image (.RgbaImageTexture ⟨2, 2, List.replicate 16 3⟩ 5 11)
        ⟨1, 1, [0, 0, 0, 0]⟩ 13
      = PanicOr.panic "Image dimensions do not match"
    ∧ Texture.data (.RgbaImageTexture ⟨2, 2, List.replicate 16 3⟩ 5 11)
      = List.replicate 16 3 :=
  C1_update_image_dimension_mismatch_panics
    ⟨2, 2, List.replicate 16 3⟩ 5 11 ⟨1, 1, [0, 0, 0, 0]⟩ 13 (by decide)

/-- Claim C4, counterexample: a successful content mutation whose random
draw happens to coincide with the current fingerprint leaves the
fingerprint unchanged, so `update_image` does not always change it. -/
theorem C4_counterexample :
    Texture.update_image (.RgbaImageTexture ⟨1, 1, [0, 0, 0, 0]⟩ 3 5)
        ⟨1, 1, [9, 9, 9, 9]⟩ 5
      = PanicOr.ok (.RgbaImageTexture ⟨1, 1, [9, 9, 9, 9]⟩ 3 5)
    ∧ Texture.fingerprint (.RgbaImageTexture ⟨1, 1, [9, 9, 9, 9]⟩ 3 5)
      = Texture.fingerprint (.RgbaImageTexture ⟨1, 1, [0, 0, 0, 0]⟩ 3 5) := by
  decide

/-- Claim C4 (amended): `fingerprint()` is a pure read of the stored
field, so repeated calls without a mutation agree; a successful
`update_image` overwrites the fingerprint with the fresh random draw `r`,
so the fingerprint changes exactly when the draw differs from the current
value (all but one of the 2^64 draws) — it is not guaranteed to change on
every mutation. -/
theorem C4_fingerprint_tracks_fresh_draw
    (t : Texture) (image : RgbaImage) (r : Nat) (t2 : Texture)
    (h : t.update_image image r = PanicOr.ok t2) :
    t2.fingerprint = r
    ∧ (r ≠ t.fingerprint → t2.fingerprint ≠ t.fingerprint) := by
  cases t with
  | RgbaImageTexture old id fp =>
      by_cases hd : (old.width, old.height) = (image.width, image.height)
      · simp [Texture.update_image, hd] at h
        subst h
        exact ⟨rfl, fun hr => hr⟩
      · simp [Texture.update_image, hd] at h
  | RawTexture buffer w hgt id fp => cases h

/-- Claim C4 witness: the amended theorem applied to a concrete texture,
a same-dimension replacement image and the fresh draw 9. -/
theorem C4_witness :
    Texture.fingerprint (.RgbaImageTexture ⟨1, 1, [1, 2, 3, 4]⟩ 3 9) = 9
    ∧ (9 ≠ Texture.fingerprint (.RgbaImageTexture ⟨1, 1, [0, 0, 0, 0]⟩ 3 5) →
        Texture.fingerprint (.RgbaImageTexture ⟨1, 1, [1, 2, 3, 4]⟩ 3 9)
          ≠ Texture.fingerprint (.RgbaImageTexture ⟨1, 1, [0, 0, 0, 0]⟩ 3 5)) :=
  C4_fingerprint_tracks_fresh_draw
    (.RgbaImageTexture ⟨1, 1, [0, 0, 0, 0]⟩ 3 5) ⟨1, 1, [1, 2, 3, 4]⟩ 9
    (.RgbaImageTexture ⟨1, 1, [1, 2, 3, 4]⟩ 3 9) (by decide)

/-- Claim C5: `cache_id()` is invariant across any number of content
mutations of the same texture value: a sequence of `update_image` calls
that completes successfully yields a texture with the cache identity that
was assigned at construction. -/
theorem C5_cache_id_stable_under_updates
    (us : List (RgbaImage × Nat)) (t : Texture) (t2 : Texture)
    (h : applyUpdates t us = PanicOr.ok t2) :
    t2.cache_id = t.cache_id := by
  induction us generalizing t with
  | nil =>
      unfold applyUpdates at h
      cases h; rfl
  | cons u rest ih =>
      unfold applyUpdates at h
      revert h
      cases hu : Texture.update_image t u.1 u.2 with
      | panic msg => intro h; cases h
      | ok t1 =>
          intro h
          have h1 := update_image_ok_cache_id t u.1 u.2 t1 hu
          have h2 := ih t1 h
          exact h2.trans h1

/-- Claim C5 witness: two successive content mutations of a concrete
texture with id 3 keep `cache_id` equal to 3 (the constructed identity). -/
theorem C5_witness :
    applyUpdates (.RgbaImageTexture ⟨1, 1, [0, 0, 0, 0]⟩ 3 5)
        [(⟨1, 1, [1, 1, 1, 1]⟩, 9), (⟨1, 1, [2, 2, 2, 2]⟩, 11)]
      = PanicOr.ok (.RgbaImageTexture ⟨1, 1, [2, 2, 2, 2]⟩ 3 11)
    ∧ Texture.cache_id (.RgbaImageTexture ⟨1, 1, [2, 2, 2, 2]⟩ 3 11)
      = Texture.cache_id (.RgbaImageTexture ⟨1, 1, [0, 0, 0, 0]⟩ 3 5) :=
  ⟨by decide,
   C5_cache_id_stable_under_updates
     [(⟨1, 1, [1, 1, 1, 1]⟩, 9), (⟨1, 1, [2, 2, 2, 2]⟩, 11)]
     (.RgbaImageTexture ⟨1, 1, [0, 0, 0, 0]⟩ 3 5)
     (.RgbaImageTexture ⟨1, 1, [2, 2, 2, 2]⟩ 3 11) (by decide)⟩

/-- Claim C10: for every `RawTexture` and every replacement image and
random draw, `update_image` panics with "Texture is not backed by an
image" and the texture value is unchanged (its `data()` is still the
original buffer): in-place content update is only defined for image-backed
textures. -/
theorem C10_update_image_raw_texture_panics
    (buffer : List Nat) (width height : Nat) (id fp : Nat)
    (image : RgbaImage) (r : Nat) :
    Texture.update_image (.RawTexture buffer width height id fp) image r
      = PanicOr.panic "Texture is not backed by an image"
    ∧ Texture.data (.RawTexture buffer width height id fp) = buffer :=
  ⟨rfl, rfl⟩

/-- Claim C7, counterexample: for a `Texture` material the uniform payload
is the single stretch-mode tag byte — no size-mode or size values — and
its length 1 differs from `uniform_buffer_size` (16). -/
theorem C7_counterexample :
    Material.uniform_bytes (.Texture (.RawTexture [] 1 1 0 0) .Exact)
      = PanicOr.ok [0]
    ∧ Material.uniform_buffer_size (.Texture (.RawTexture [] 1 1 0 0) .Exact) = 16
    ∧ ([0] : List Nat).length ≠ 16 := by
  decide

/-- Claim C7 (amended): a `Color` material's uniform payload is exactly
the 16-byte packing of the four 32-bit float RGBA components, and its
length equals `uniform_buffer_size`; a `Texture` material's payload is the
single byte holding the stretch-mode tag (no size values), whose length 1
differs from `uniform_buffer_size` = 16. -/
theorem C7_uniform_payload_encoding :
    (∀ color : Colour, ∃ bs,
        Material.uniform_bytes (.Color color) = PanicOr.ok bs
        ∧ bs = toLeBytes color.r ++ toLeBytes color.g ++ toLeBytes color.b ++ toLeBytes color.a
        ∧ bs.length = (Material.Color color).uniform_buffer_size)
    ∧ (∀ (t : Texture) (s : TextureStretchMode), ∃ bs,
        Material.uniform_bytes (.Texture t s) = PanicOr.ok bs
        ∧ bs = [s.u32_repr % 256]
        ∧ bs.length = 1
        ∧ bs.length ≠ (Material.Texture t s).uniform_buffer_size) := by
  constructor
  · intro color
    refine ⟨Colour.bytesOf color, rfl, rfl, ?_⟩
    simp [Colour.bytesOf, toLeBytes, Material.uniform_buffer_size,
      Material.material_type, MaterialType.uniform_buffer_size]
  · intro t s
    refine ⟨[s.u32_repr % 256], rfl, rfl, rfl, ?_⟩
    simp [Material.uniform_buffer_size, Material.material_type,
      MaterialType.uniform_buffer_size]

/-- Claim C9, counterexample: `uniform_bytes` on a `Gradient` material
hits the `todo!()` branch and panics; it is not total on materials. -/
theorem C9_counterexample :
    Material.uniform_bytes (.Gradient .Linear [] [] .None 0)
      = PanicOr.panic "not yet implemented" :=
  rfl

/-- Claim C9 (amended): `uniform_bytes` returns a byte sequence for every
material that is not a `Gradient`; the panicking `todo!()` branch is
reached exactly by `Gradient` materials. -/
theorem C9_uniform_bytes_total_off_gradient
    (m : Material) (h : m.material_type ≠ MaterialType.Gradient) :
    ∃ bs, m.uniform_bytes = PanicOr.ok bs := by
  cases m with
  | Color color => exact ⟨Colour.bytesOf color, rfl⟩
  | Texture t s => exact ⟨[s.u32_repr % 256], rfl⟩
  | Gradient g cs ss rm rot => exact absurd rfl h

/-- Claim C9 witness: the amended theorem applied to a concrete `Color`
material. -/
theorem C9_witness :
    Material.material_type (.Color ⟨0, 0, 0, 0⟩) ≠ MaterialType.Gradient
    ∧ ∃ bs, Material.uniform_bytes (.Color ⟨0, 0, 0, 0⟩) = PanicOr.ok bs :=
  ⟨by decide, C9_uniform_bytes_total_off_gradient (.Color ⟨0, 0, 0, 0⟩) (by decide)⟩

/-- Helper: looking up a key in a one-entry cache succeeds exactly when
the stored key and the query key match under the cache-key semantics. -/
theorem cacheGet_singleton (a b : Circle) (mesh : List Vertex × List Nat) :
    cacheGet (cacheInsert [] a mesh) b
      = if keyMatch a b then some mesh else none := by
  by_cases hk : keyMatch a b
  · simp [cacheGet, cacheInsert, List.find?, hk]
  · simp [cacheGet, cacheInsert, List.find?, hk]

/-- Helper: the self-match of a circle under the derived `PartialEq`
succeeds exactly when no field is NaN. -/
theorem circleEq_self (a : Circle) :
    circleEq a a
      = (!f32IsNaN a.centerx && !f32IsNaN a.centery && !f32IsNaN a.radius) := by
  simp [circleEq, f32Eq]

/-- Claim C8, counterexample: a circle with a NaN radius bit pattern
(0x7FC00000) is bit-identical to itself, yet a cache lookup with the very
same bit pattern misses the entry stored under it — the derived
`PartialEq` compares `f32` fields numerically, and NaN is unequal to
itself. -/
theorem C8_counterexample :
    (⟨0, 0, 2143289344⟩ : Circle) = ⟨0, 0, 2143289344⟩
    ∧ cacheGet (cacheInsert [] ⟨0, 0, 2143289344⟩ ([], [])) ⟨0, 0, 2143289344⟩
      = none := by
  decide

/-- Claim C8 (amended): two primitives map to the same mesh-cache entry
iff they are bit-identical AND no field of the key is NaN: the key uses
the bit-pattern hash (so 0.0 and -0.0, hashing differently, are distinct
keys) together with the derived numeric `PartialEq` (so a NaN-field
primitive matches no entry, not even a bit-identical one). -/
theorem C8_cache_key_bit_and_numeric_equality
    (a b : Circle) (mesh : List Vertex × List Nat) :
    cacheGet (cacheInsert [] a mesh) b = some mesh
      ↔ (a = b
          ∧ f32IsNaN a.centerx = false
          ∧ f32IsNaN a.centery = false
          ∧ f32IsNaN a.radius = false) := by
  rw [cacheGet_singleton]
  by_cases hk : keyMatch a b
  · simp only [hk, if_true]
    have hab : a = b := by
      have := hk
      unfold keyMatch at this
      exact eq_of_beq (Bool.and_elim_left this)
    subst hab
    have hself : circleEq a a = true := by
      have := hk
      unfold keyMatch at this
      exact Bool.and_elim_right this
    rw [circleEq_self] at hself
    simp only [Bool.and_eq_true, Bool.not_eq_true'] at hself
    obtain ⟨⟨h1, h2⟩, h3⟩ := hself
    simp [h1, h2, h3]
  · simp only [hk, if_false]
    constructor
    · intro hfalse; cases hfalse
    · rintro ⟨hab, h1, h2, h3⟩
      subst hab
      exfalso
      apply hk
      unfold keyMatch
      rw [circleEq_self]
      simp [h1, h2, h3]

/-- Helper: on a cache hit, `tess` appends the cached mesh and does not
invoke the tessellator. -/
theorem tess_hit (T : Circle → Except String (List Vertex × List Nat))
    (c : Circle) (b : VertexBuffer) (m : MeshCache)
    (v : List Vertex × List Nat) (hv : cacheGet m c = some v) :
    tess T c b m
      = PanicOr.ok (⟨b.vertices ++ v.1, b.indices ++ v.2⟩, m, false) := by
  unfold tess
  rw [hv]

/-- Helper: on a cache miss with a succeeding tessellator, `tess` appends
the fresh mesh (indices shifted by the buffer's vertex count) and inserts
exactly the appended segment into the cache. -/
theorem tess_miss (T : Circle → Except String (List Vertex × List Nat))
    (c : Circle) (b : VertexBuffer) (m : MeshCache)
    (vs : List Vertex) (ids : List Nat)
    (hm : cacheGet m c = none) (hT : T c = Except.ok (vs, ids)) :
    tess T c b m
      = PanicOr.ok
          (⟨b.vertices ++ vs, b.indices ++ ids.map (fun i => i + b.vertices.length)⟩,
           cacheInsert m c (vs, ids.map (fun i => i + b.vertices.length)), true) := by
  unfold tess
  rw [hm, hT]

/-- Helper: on a cache miss with a failing tessellator, `tess` panics (the
`unwrap` of the tessellation result). -/
theorem tess_miss_err (T : Circle → Except String (List Vertex × List Nat))
    (c : Circle) (b : VertexBuffer) (m : MeshCache) (e : String)
    (hm : cacheGet m c = none) (hT : T c = Except.error e) :
    tess T c b m = PanicOr.panic "called Result::unwrap() on an Err value" := by
  unfold tess
  rw [hm, hT]

/-- Helper: a freshly inserted entry is found again, provided its key
matches itself under the cache-key semantics. -/
theorem cacheGet_insert_self (m : MeshCache) (c : Circle)
    (v : List Vertex × List Nat) (hk : keyMatch c c = true) :
    cacheGet (cacheInsert m c v) c = some v := by
  simp [cacheGet, cacheInsert, List.find?, hk]

/-- Claim C2, counterexample: for a circle whose centerx is a NaN bit
pattern (0x7FC00000) and whose radius is the non-degenerate 100.0 (bit
pattern 1120403456, so tessellation succeeds), the cache never hits, so a
second `tess` call re-tessellates at a shifted vertex offset: the first
call appends index segment [0], the second appends [1] — the two calls'
outputs are not bit-identical, and do depend on the prior cache state. -/
theorem C2_counterexample :
    tess (fun _ => Except.ok ([⟨3, 3⟩], [0])) ⟨2143289344, 0, 1120403456⟩ ⟨[], []⟩ []
      = PanicOr.ok (⟨[⟨3, 3⟩], [0]⟩,
          [(⟨2143289344, 0, 1120403456⟩, ([⟨3, 3⟩], [0]))], true)
    ∧ tess (fun _ => Except.ok ([⟨3, 3⟩], [0])) ⟨2143289344, 0, 1120403456⟩
        ⟨[⟨3, 3⟩], [0]⟩ [(⟨2143289344, 0, 1120403456⟩, ([⟨3, 3⟩], [0]))]
      = PanicOr.ok (⟨[⟨3, 3⟩, ⟨3, 3⟩], [0, 1]⟩,
          [(⟨2143289344, 0, 1120403456⟩, ([⟨3, 3⟩], [1])),
           (⟨2143289344, 0, 1120403456⟩, ([⟨3, 3⟩], [0]))], true)
    ∧ ([0, 1] : List Nat).drop 1 ≠ ([0] : List Nat).drop 0 :=
  ⟨rfl, rfl, by decide⟩

/-- Claim C2 (amended): two successive `tess` calls with the same
primitive append bit-identical vertex and index segments to the buffer,
whatever (pure) tessellator function lyon provides and whatever the prior
buffer and cache state, provided the primitive's cache key matches itself
(true for every primitive without NaN fields; a NaN-field primitive
defeats the cache and is re-tessellated at a shifted vertex offset). -/
theorem C2_tess_twice_bit_identical
    (T : Circle → Except String (List Vertex × List Nat))
    (c : Circle) (b : VertexBuffer) (m : MeshCache)
    (b1 : VertexBuffer) (m1 : MeshCache) (i1 : Bool)
    (hkey : keyMatch c c = true)
    (h1 : tess T c b m = PanicOr.ok (b1, m1, i1)) :
    ∃ b2 m2 i2, tess T c b1 m1 = PanicOr.ok (b2, m2, i2)
      ∧ b2.vertices.drop b1.vertices.length = b1.vertices.drop b.vertices.length
      ∧ b2.indices.drop b1.indices.length = b1.indices.drop b.indices.length := by
  cases hc : cacheGet m c with
  | some v =>
      rw [tess_hit T c b m v hc] at h1
      simp only [PanicOr.ok.injEq, Prod.mk.injEq] at h1
      obtain ⟨hb1, hm1, hi1⟩ := h1
      subst hb1
      subst hm1
      refine ⟨_, _, _, tess_hit T c _ m v hc, ?_, ?_⟩
      · simp [List.drop_left]
      · simp [List.drop_left]
  | none =>
      cases hT : T c with
      | error e =>
          rw [tess_miss_err T c b m e hc hT] at h1
          cases h1
      | ok out =>
          rw [tess_miss T c b m out.1 out.2 hc (by rw [hT])] at h1
          simp only [PanicOr.ok.injEq, Prod.mk.injEq] at h1
          obtain ⟨hb1, hm1, hi1⟩ := h1
          subst hb1
          subst hm1
          refine ⟨_, _, _,
            tess_hit T c _ _ _ (cacheGet_insert_self m c _ hkey), ?_, ?_⟩
          · simp [List.drop_left]
          · simp [List.drop_left]

/-- Claim C2 witness: the determinism theorem applied to a concrete
circle of radius 100.0 (bit pattern 1120403456), a one-triangle
tessellator, and the state just after a first call on an empty buffer and
empty cache. -/
theorem C2_witness :
    keyMatch ⟨0, 0, 1120403456⟩ ⟨0, 0, 1120403456⟩ = true
    ∧ ∃ b2 m2 i2,
        tess (fun _ => Except.ok ([⟨0, 0⟩, ⟨0, 1⟩, ⟨1, 0⟩], [0, 1, 2]))
            ⟨0, 0, 1120403456⟩
            ⟨[⟨0, 0⟩, ⟨0, 1⟩, ⟨1, 0⟩], [0, 1, 2]⟩
            [(⟨0, 0, 1120403456⟩, ([⟨0, 0⟩, ⟨0, 1⟩, ⟨1, 0⟩], [0, 1, 2]))]
          = PanicOr.ok (b2, m2, i2)
        ∧ b2.vertices.drop 3
            = List.drop 0 [(⟨0, 0⟩ : Vertex), ⟨0, 1⟩, ⟨1, 0⟩]
        ∧ b2.indices.drop 3 = List.drop 0 [0, 1, 2] :=
  ⟨by decide,
   C2_tess_twice_bit_identical
     (fun _ => Except.ok ([⟨0, 0⟩, ⟨0, 1⟩, ⟨1, 0⟩], [0, 1, 2]))
     ⟨0, 0, 1120403456⟩ ⟨[], []⟩ []
     ⟨[⟨0, 0⟩, ⟨0, 1⟩, ⟨1, 0⟩], [0, 1, 2]⟩
     [(⟨0, 0, 1120403456⟩, ([⟨0, 0⟩, ⟨0, 1⟩, ⟨1, 0⟩], [0, 1, 2]))] true
     (by decide) rfl⟩

/-- Claim C3, counterexample: for a circle whose radius is a NaN bit
pattern (0x7FC00000), a lookup with the identical primitive misses the
entry just inserted for it, so a second `tess` call with the identical
primitive invokes the tessellator again (invocation flag `true` both
times) — and, tessellating at a shifted vertex offset, appends a
different index segment ([1] instead of [0]). -/
theorem C3_counterexample :
    cacheGet (cacheInsert [] ⟨0, 0, 2143289344⟩ ([⟨0, 0⟩], [0]))
        ⟨0, 0, 2143289344⟩ = none
    ∧ tess (fun _ => Except.ok ([⟨0, 0⟩], [0])) ⟨0, 0, 2143289344⟩ ⟨[], []⟩ []
        = PanicOr.ok (⟨[⟨0, 0⟩], [0]⟩, [(⟨0, 0, 2143289344⟩, ([⟨0, 0⟩], [0]))], true)
    ∧ tess (fun _ => Except.ok ([⟨0, 0⟩], [0])) ⟨0, 0, 2143289344⟩
        ⟨[⟨0, 0⟩], [0]⟩ [(⟨0, 0, 2143289344⟩, ([⟨0, 0⟩], [0]))]
        = PanicOr.ok (⟨[⟨0, 0⟩, ⟨0, 0⟩], [0, 1]⟩,
            [(⟨0, 0, 2143289344⟩, ([⟨0, 0⟩], [1])),
             (⟨0, 0, 2143289344⟩, ([⟨0, 0⟩], [0]))], true) :=
  ⟨rfl, rfl, rfl⟩

/-- Claim C3 (amended): `tess` looks the primitive up first; on a hit it
appends the cached mesh without invoking the tessellator (flag `false`),
and on a miss it invokes the tessellator (flag `true`), inserts the fresh
appended mesh into the cache and returns it; consequently a second call
with an identical primitive does not invoke the tessellator again,
provided the primitive's cache key matches itself (true for every
primitive without NaN fields; a NaN-field primitive misses on every
lookup). -/
theorem C3_cache_interaction
    (T : Circle → Except String (List Vertex × List Nat))
    (c : Circle) (b : VertexBuffer) (m : MeshCache) :
    (∀ v, cacheGet m c = some v →
        tess T c b m = PanicOr.ok (⟨b.vertices ++ v.1, b.indices ++ v.2⟩, m, false))
    ∧ (∀ vs ids, cacheGet m c = none → T c = Except.ok (vs, ids) →
        tess T c b m = PanicOr.ok
          (⟨b.vertices ++ vs, b.indices ++ ids.map (fun i => i + b.vertices.length)⟩,
           cacheInsert m c (vs, ids.map (fun i => i + b.vertices.length)), true))
    ∧ (∀ b1 m1 i1, keyMatch c c = true →
        tess T c b m = PanicOr.ok (b1, m1, i1) →
        ∃ b2 m2, tess T c b1 m1 = PanicOr.ok (b2, m2, false)) := by
  refine ⟨fun v hv => tess_hit T c b m v hv,
          fun vs ids hm hT => tess_miss T c b m vs ids hm hT, ?_⟩
  intro b1 m1 i1 hk h1
  cases hc : cacheGet m c with
  | some v =>
      rw [tess_hit T c b m v hc] at h1
      simp only [PanicOr.ok.injEq, Prod.mk.injEq] at h1
      obtain ⟨hb1, hm1, hi1⟩ := h1
      subst hm1
      exact ⟨_, _, tess_hit T c b1 m v hc⟩
  | none =>
      cases hT : T c with
      | error e =>
          rw [tess_miss_err T c b m e hc hT] at h1
          cases h1
      | ok out =>
          rw [tess_miss T c b m out.1 out.2 hc (by rw [hT])] at h1
          simp only [PanicOr.ok.injEq, Prod.mk.injEq] at h1
          obtain ⟨hb1, hm1, hi1⟩ := h1
          subst hm1
          exact ⟨_, _, tess_hit T c b1 _ _ (cacheGet_insert_self m c _ hk)⟩

/-- Claim C3 witness: the cache-interaction theorem applied to the
radius-100.0 circle — a hit on a pre-warmed cache appends the cached mesh
without invoking the tessellator, and after a fresh first call a second
call does not invoke the tessellator. -/
theorem C3_witness :
    tess (fun _ => Except.ok ([⟨0, 0⟩], [0])) ⟨0, 0, 1120403456⟩ ⟨[], []⟩
        [(⟨0, 0, 1120403456⟩, ([⟨2, 2⟩], [5]))]
      = PanicOr.ok (⟨[⟨2, 2⟩], [5]⟩, [(⟨0, 0, 1120403456⟩, ([⟨2, 2⟩], [5]))], false)
    ∧ ∃ b2 m2,
        tess (fun _ => Except.ok ([⟨0, 0⟩], [0])) ⟨0, 0, 1120403456⟩
            ⟨[⟨0, 0⟩], [0]⟩ [(⟨0, 0, 1120403456⟩, ([⟨0, 0⟩], [0]))]
          = PanicOr.ok (b2, m2, false) :=
  ⟨(C3_cache_interaction (fun _ => Except.ok ([⟨0, 0⟩], [0])) ⟨0, 0, 1120403456⟩
      ⟨[], []⟩ [(⟨0, 0, 1120403456⟩, ([⟨2, 2⟩], [5]))]).1 ([⟨2, 2⟩], [5]) rfl,
   (C3_cache_interaction (fun _ => Except.ok ([⟨0, 0⟩], [0])) ⟨0, 0, 1120403456⟩
      ⟨[], []⟩ []).2.2 ⟨[⟨0, 0⟩], [0]⟩ [(⟨0, 0, 1120403456⟩, ([⟨0, 0⟩], [0]))] true
      (by decide) rfl⟩

/-- Claim C6, counterexample: on the degenerate zero-radius circle the
tessellator reports an error, and `tess` panics (aborts) instead of
returning a recoverable `DegenerateGeometry` error — `tess` has no error
channel at all, its only outcomes are normal return and panic. -/
theorem C6_counterexample :
    degenTess ⟨0, 0, 0⟩ = Except.error "DegenerateGeometry"
    ∧ tess degenTess ⟨0, 0, 0⟩ ⟨[], []⟩ []
        = PanicOr.panic "called Result::unwrap() on an Err value" :=
  ⟨rfl, rfl⟩

/-- Claim C6 (amended): whenever the tessellator fails on a primitive not
in the cache, `tess` unwraps the failure into a panic — the process
aborts, no recoverable error is returned — and the geometry builder's
`abort_geometry` likewise panics unconditionally. -/
theorem C6_degenerate_tessellation_panics
    (T : Circle → Except String (List Vertex × List Nat))
    (c : Circle) (b : VertexBuffer) (m : MeshCache) (e : String)
    (hm : cacheGet m c = none) (hT : T c = Except.error e) :
    tess T c b m = PanicOr.panic "called Result::unwrap() on an Err value"
    ∧ abort_geometry = PanicOr.panic
        "Something went wrong while tessellating a geometry, cannot proceed." :=
  ⟨tess_miss_err T c b m e hm hT, rfl⟩

/-- Claim C6 witness: the amended theorem applied to a tessellator that
fails on every input, at a circle of all-one bit patterns with an empty
cache. -/
theorem C6_witness :
    tess (fun _ => Except.error "TessellationError") ⟨1, 1, 1⟩ ⟨[], []⟩ []
      = PanicOr.panic "called Result::unwrap() on an Err value"
    ∧ abort_geometry = PanicOr.panic
        "Something went wrong while tessellating a geometry, cannot proceed." :=
  C6_degenerate_tessellation_panics (fun _ => Except.error "TessellationError")
    ⟨1, 1, 1⟩ ⟨[], []⟩ [] "TessellationError" rfl rfl

end Shebang
